import Mathlib

/-
Shallow embedding of `pq.c` (cozis/pq.c), a command-line utility managing
POSIX message queues through the `mqueue` pseudo-filesystem.

The program is a sequential wrapper over OS primitives.  Each OS call is
modelled by an oracle value carried in a `World`: the return code and the
`errno` value the kernel would leave behind.  Each C function becomes a pure
Lean function from the `World` (and its arguments) to its boolean result
together with the observable effects: the ordered list of system calls it
performed, the diagnostic messages written to the error stream, and the
lines written to standard output.
-/

namespace Pq

/-- Linux errno value `EPERM` (operation not permitted). -/
def EPERM : Nat := 1

/-- Linux errno value `ENOENT` (no such file or directory). -/
def ENOENT : Nat := 2

/-- Linux errno value `EACCES` (permission denied). -/
def EACCES : Nat := 13

/-- Linux errno value `EBUSY` (device or resource busy). -/
def EBUSY : Nat := 16

/-- Linux errno value `EEXIST` (file exists). -/
def EEXIST : Nat := 17

/-- Linux errno value `EINVAL` (invalid argument). -/
def EINVAL : Nat := 22

/-- `dirent.d_type` value for a sub-directory (`DT_DIR`). -/
def DT_DIR : Nat := 4

/-- Outcome of one C system call: the integer return code (`0` means
success, nonzero means failure for the calls used here) and the `errno`
value left behind when it failed. -/
structure SysRet where
  res : Int
  errno : Nat
deriving Repr, DecidableEq

/-- One directory entry as returned by `readdir`: its `d_type` tag and its
name `d_name`. -/
structure DirEnt where
  d_type : Nat
  d_name : String
deriving Repr, DecidableEq

/-- A queue attribute record, mirroring `struct mq_attr`'s four fields. -/
structure MqAttr where
  mq_flags : Int
  mq_maxmsg : Int
  mq_msgsize : Int
  mq_curmsgs : Int
deriving Repr, DecidableEq

/-- The OS oracle: the outcome each system call would have if the program
performed it during this invocation. -/
structure World where
  mkdirRet : SysRet
  mountRet : SysRet
  umountRet : SysRet
  rmdirRet : SysRet
  opendirOk : Bool
  dirEntries : List DirEnt
  mqOpenRet : Int
  mqOpenErrno : Nat
  getattrRet : SysRet
  attr : MqAttr
  mqCloseRet : Int
  mqUnlinkRet : SysRet
deriving Repr, DecidableEq

/-- The system calls the program can perform (the OS-mutating and
queue-touching ones that the effect trace records). -/
inductive Call where
  | mkdir
  | mount
  | umount
  | rmdir
  | opendir
  | mqOpen
  | mqGetattr
  | mqClose
  | mqUnlink
deriving Repr, DecidableEq

/-- A diagnostic message written to the error stream, one constructor per
`fprintf(stderr, ...)` in the source, carrying the data interpolated into
the format string. -/
inductive Msg where
  | invalidUsage
  | usageLine (progname : String)
  | invalidAction (cmd : String)
  | mkdirFailed (errno : Nat)
  | mountFailed (errno : Nat)
  | umountFailed (errno : Nat)
  | rmdirFailed (errno : Nat)
  | readQueueDirFailed
  | openQueueFailed (name : String) (errno : Nat)
  | getattrFailed (name : String) (errno : Nat)
  | unlinkFailed (name : String) (errno : Nat)
deriving Repr, DecidableEq

/-- A line written to standard output, one constructor per
`fprintf(stdout, ...)` line in the source. -/
inductive OutLine where
  | queueName (s : String)
  | noQueues
  | flagsLine (v : Int)
  | maxmsgLine (v : Int)
  | msgsizeLine (v : Int)
  | curmsgsLine (v : Int)
deriving Repr, DecidableEq

/-- Observable effects of a run: system calls in order, error-stream
messages in order, standard-output lines in order. -/
structure Effects where
  calls : List Call
  stderr : List Msg
  stdout : List OutLine
deriving Repr, DecidableEq

/-- Concatenation of two effect traces (sequential composition). -/
def Effects.append (a b : Effects) : Effects :=
  ⟨a.calls ++ b.calls, a.stderr ++ b.stderr, a.stdout ++ b.stdout⟩

/-- Embedding of `ensurePosixQueueFileSystemMounted`: `mkdir` the mount
point, tolerating `EEXIST`; then `mount` the mqueue filesystem, tolerating
`EBUSY`; any other failure of either call is reported and fatal. -/
def ensurePosixQueueFileSystemMounted (w : World) : Bool × Effects :=
  if w.mkdirRet.res ≠ 0 ∧ w.mkdirRet.errno ≠ EEXIST then
    (false, ⟨[Call.mkdir], [Msg.mkdirFailed w.mkdirRet.errno], []⟩)
  else if w.mountRet.res ≠ 0 ∧ w.mountRet.errno ≠ EBUSY then
    (false, ⟨[Call.mkdir, Call.mount], [Msg.mountFailed w.mountRet.errno], []⟩)
  else
    (true, ⟨[Call.mkdir, Call.mount], [], []⟩)

/-- Embedding of `unmountPosixQueue` exactly as written in the source:
`umount` the mount point; if it fails with `errno == EBUSY`, report and
return `false`; otherwise (success or any other failure) fall into the
`else` branch and `rmdir` the mount point, where a failure with an errno
other than `EBUSY` is reported and fatal. -/
def unmountPosixQueue (w : World) : Bool × Effects :=
  if w.umountRet.res ≠ 0 ∧ w.umountRet.errno = EBUSY then
    (false, ⟨[Call.umount], [Msg.umountFailed w.umountRet.errno], []⟩)
  else if w.rmdirRet.res ≠ 0 ∧ w.rmdirRet.errno ≠ EBUSY then
    (false, ⟨[Call.umount, Call.rmdir], [Msg.rmdirFailed w.rmdirRet.errno], []⟩)
  else
    (true, ⟨[Call.umount, Call.rmdir], [], []⟩)

/-- The check `d_name[0] == '.'`: the first character of the name is a
dot (an empty C string has `d_name[0] == 0`, which is not a dot). -/
def hiddenName (s : String) : Bool :=
  match s.data with
  | [] => false
  | c :: _ => c = '.'

/-- The `readdir` loop body of `listPosixQueues`: entries whose `d_type`
is `DT_DIR` or whose name starts with a dot character are skipped; every
other entry's name is printed and counted.  Returns the printed lines and
the final value of `count`. -/
def listLoop : List DirEnt → List OutLine × Nat
  | [] => ([], 0)
  | ent :: rest =>
    if ent.d_type = DT_DIR ∨ hiddenName ent.d_name = true then
      listLoop rest
    else
      let r := listLoop rest
      (OutLine.queueName ent.d_name :: r.1, r.2 + 1)

/-- Embedding of `listPosixQueues`: open the mount-point directory (fatal
and reported if that fails), run the `readdir` loop, and print the
placeholder line when the loop printed nothing. -/
def listPosixQueues (w : World) : Bool × Effects :=
  if w.opendirOk = false then
    (false, ⟨[Call.opendir], [Msg.readQueueDirFailed], []⟩)
  else
    (true, ⟨[Call.opendir], [],
      if (listLoop w.dirEntries).2 = 0 then
        (listLoop w.dirEntries).1 ++ [OutLine.noQueues]
      else
        (listLoop w.dirEntries).1⟩)

/-- Embedding of `printPosixQueueInfo`: open the queue read-only (a
negative descriptor is a reported fatal failure); query its attributes
(on failure report, close, and fail); otherwise print the four attribute
lines, close, and succeed.  The result of `mq_close` is never inspected. -/
def printPosixQueueInfo (queue_name : String) (w : World) : Bool × Effects :=
  if w.mqOpenRet < 0 then
    (false, ⟨[Call.mqOpen], [Msg.openQueueFailed queue_name w.mqOpenErrno], []⟩)
  else if w.getattrRet.res ≠ 0 then
    (false, ⟨[Call.mqOpen, Call.mqGetattr, Call.mqClose],
      [Msg.getattrFailed queue_name w.getattrRet.errno], []⟩)
  else
    (true, ⟨[Call.mqOpen, Call.mqGetattr, Call.mqClose], [],
      [OutLine.flagsLine w.attr.mq_flags,
       OutLine.maxmsgLine w.attr.mq_maxmsg,
       OutLine.msgsizeLine w.attr.mq_msgsize,
       OutLine.curmsgsLine w.attr.mq_curmsgs]⟩)

/-- Embedding of `unlinkPosixQueue`: `mq_unlink` the name; failure is
reported and fatal. -/
def unlinkPosixQueue (queue_name : String) (w : World) : Bool × Effects :=
  if w.mqUnlinkRet.res ≠ 0 then
    (false, ⟨[Call.mqUnlink], [Msg.unlinkFailed queue_name w.mqUnlinkRet.errno], []⟩)
  else
    (true, ⟨[Call.mqUnlink], [], []⟩)

/-- The program name used in the usage message:
`argc > 0 ? argv[0] : "pq"`. -/
def prognameOf (argv : List String) : String :=
  if argv.length > 0 then argv.headD "pq" else "pq"

/-- The mapping of a subcommand's boolean result to `main`'s return value:
`ok ? 0 : -1`. -/
def boolToExit (b : Bool) : Int :=
  if b then 0 else -1

/-- Embedding of `main`: check `argc`, unconditionally ensure the
filesystem is mounted, then dispatch on `argv[1]`, checking the presence
of the queue-name argument for `stat` and `unlink`.  Returns the value
`main` returns (`0` or `-1`) together with the accumulated effects. -/
def pqMain (argv : List String) (w : World) : Int × Effects :=
  if argv.length < 2 then
    (-1, ⟨[], [Msg.invalidUsage, Msg.usageLine (prognameOf argv)], []⟩)
  else if (ensurePosixQueueFileSystemMounted w).1 = false then
    (-1, (ensurePosixQueueFileSystemMounted w).2)
  else if argv.getD 1 "" = "ls" then
    (boolToExit (listPosixQueues w).1,
      (ensurePosixQueueFileSystemMounted w).2.append (listPosixQueues w).2)
  else if argv.getD 1 "" = "umount" then
    (boolToExit (unmountPosixQueue w).1,
      (ensurePosixQueueFileSystemMounted w).2.append (unmountPosixQueue w).2)
  else if argv.getD 1 "" = "stat" then
    if argv.length < 3 then
      (-1, (ensurePosixQueueFileSystemMounted w).2.append
        ⟨[], [Msg.invalidUsage, Msg.usageLine (prognameOf argv)], []⟩)
    else
      (boolToExit (printPosixQueueInfo (argv.getD 2 "") w).1,
        (ensurePosixQueueFileSystemMounted w).2.append (printPosixQueueInfo (argv.getD 2 "") w).2)
  else if argv.getD 1 "" = "unlink" then
    if argv.length < 3 then
      (-1, (ensurePosixQueueFileSystemMounted w).2.append
        ⟨[], [Msg.invalidUsage, Msg.usageLine (prognameOf argv)], []⟩)
    else
      (boolToExit (unlinkPosixQueue (argv.getD 2 "") w).1,
        (ensurePosixQueueFileSystemMounted w).2.append (unlinkPosixQueue (argv.getD 2 "") w).2)
  else
    (-1, (ensurePosixQueueFileSystemMounted w).2.append
      ⟨[], [Msg.invalidAction (argv.getD 1 "")], []⟩)

/-- A `SysRet` describing a successful system call. -/
def okRet : SysRet := ⟨0, 0⟩

/-- A world in which every system call succeeds: the mount point gets
created and mounted, the directory opens with no entries, the queue opens
on descriptor 3, and its attributes read back as flags 0, maxmsg 10,
msgsize 8192, curmsgs 0. -/
def wOk : World :=
  ⟨okRet, okRet, okRet, okRet, true, [], 3, 0, okRet, ⟨0, 10, 8192, 0⟩, 0, okRet⟩

/-- Like `wOk` but `umount` fails with `EBUSY` (filesystem in use). -/
def wBusyUmount : World := { wOk with umountRet := ⟨-1, EBUSY⟩ }

/-- Like `wOk` but `umount` fails with `EINVAL` (a non-busy failure). -/
def wInvalUmount : World := { wOk with umountRet := ⟨-1, EINVAL⟩ }

/-- Like `wOk` but `mq_open` fails with `ENOENT` (queue does not exist). -/
def wOpenFail : World := { wOk with mqOpenRet := -1, mqOpenErrno := ENOENT }

/-- Like `wOk` but `mkdir` fails with `EACCES`. -/
def wMkdirFail : World := { wOk with mkdirRet := ⟨-1, EACCES⟩ }

/-- Like `wOk` but `mq_getattr` fails with `EINVAL`. -/
def wAttrFail : World := { wOk with getattrRet := ⟨-1, EINVAL⟩ }

/-- Like `wOk` but the mount-point directory holds the `.` and `..`
directory entries, a hidden file, a sub-directory, and two regular
queue entries (`d_type` 8 is `DT_REG`). -/
def wEntries : World :=
  { wOk with dirEntries :=
      [⟨DT_DIR, "."⟩, ⟨DT_DIR, ".."⟩, ⟨8, "myq"⟩,
       ⟨8, ".hidden"⟩, ⟨DT_DIR, "subdir"⟩, ⟨8, "other"⟩] }

/-- The entries the `readdir` loop keeps: neither sub-directories nor
names beginning with a dot. -/
def isQueueEntry (e : DirEnt) : Bool :=
  decide (¬ (e.d_type = DT_DIR ∨ hiddenName e.d_name = true))

/-- When `ensurePosixQueueFileSystemMounted` succeeds it has performed
exactly the `mkdir` and `mount` calls and printed nothing. -/
theorem ensure_ok_effects (w : World)
    (h : (ensurePosixQueueFileSystemMounted w).1 = true) :
    (ensurePosixQueueFileSystemMounted w).2 =
      ⟨[Call.mkdir, Call.mount], [], []⟩ := by
  unfold ensurePosixQueueFileSystemMounted at h ⊢
  split_ifs at h ⊢
  all_goals simp_all

/-- The `readdir` loop prints exactly the names of the kept entries, in
order, and counts them. -/
theorem listLoop_eq (es : List DirEnt) :
    listLoop es =
      ((es.filter isQueueEntry).map (fun e => OutLine.queueName e.d_name),
       (es.filter isQueueEntry).length) := by
  induction es with
  | nil => rfl
  | cons ent rest ih =>
    by_cases h : ent.d_type = DT_DIR ∨ hiddenName ent.d_name = true
    · simp [listLoop, if_pos h, isQueueEntry, h, ih]
    · simp [listLoop, if_neg h, isQueueEntry, h, ih]

/-- C1: the claim fails on the code and the spec is the intent.  In a
world where the `umount` call fails with `EBUSY` and every other call
would succeed, `unmountPosixQueue` prints an error and returns `false`,
the `umount` subcommand exits `-1` (not `0`), and no `rmdir` follows the
failed `umount` — the code treats a busy filesystem as a fatal error,
while the spec says it is non-fatal and reported as success. -/
theorem unmount_busy_is_fatal_in_code :
    (unmountPosixQueue wBusyUmount).1 = false ∧
    (unmountPosixQueue wBusyUmount).2.stderr = [Msg.umountFailed EBUSY] ∧
    Call.rmdir ∉ (unmountPosixQueue wBusyUmount).2.calls ∧
    (pqMain ["pq", "umount"] wBusyUmount).1 = -1 := by
  refine ⟨rfl, rfl, by decide, ?_⟩
  rfl

/-- C2: the claim fails on the code and the spec is the intent.  In a
world where the `umount` call fails with `EINVAL` (a non-busy failure)
and every other call would succeed, `unmountPosixQueue` silently falls
through to `rmdir` and returns `true`, and the `umount` subcommand exits
`0` — the code continues past a non-`EBUSY` `umount` failure and attempts
`rmdir`, while the spec says any non-busy unmount failure is fatal and
`rmdir` happens only after a successful unmount. -/
theorem unmount_other_failure_swallowed_in_code :
    (unmountPosixQueue wInvalUmount).1 = true ∧
    Call.rmdir ∈ (unmountPosixQueue wInvalUmount).2.calls ∧
    (unmountPosixQueue wInvalUmount).2.stderr = [] ∧
    (pqMain ["pq", "umount"] wInvalUmount).1 = 0 := by
  refine ⟨rfl, by decide, rfl, ?_⟩
  rfl

/-- C4: `ensurePosixQueueFileSystemMounted` succeeds exactly when the
`mkdir` call succeeds or fails with `EEXIST` and the `mount` call succeeds
or fails with `EBUSY`; a fatal `mkdir` failure is reported and returns
`false` with no `mount` call performed; a fatal `mount` failure is
reported and returns `false`. -/
theorem ensureMounted_tolerates_exactly_eexist_and_ebusy (w : World) :
    ((ensurePosixQueueFileSystemMounted w).1 = true ↔
      ((w.mkdirRet.res = 0 ∨ w.mkdirRet.errno = EEXIST) ∧
       (w.mountRet.res = 0 ∨ w.mountRet.errno = EBUSY))) ∧
    (w.mkdirRet.res ≠ 0 → w.mkdirRet.errno ≠ EEXIST →
      ensurePosixQueueFileSystemMounted w =
        (false, ⟨[Call.mkdir], [Msg.mkdirFailed w.mkdirRet.errno], []⟩)) ∧
    (¬ (w.mkdirRet.res ≠ 0 ∧ w.mkdirRet.errno ≠ EEXIST) →
      w.mountRet.res ≠ 0 → w.mountRet.errno ≠ EBUSY →
      ensurePosixQueueFileSystemMounted w =
        (false, ⟨[Call.mkdir, Call.mount], [Msg.mountFailed w.mountRet.errno], []⟩)) := by
  refine ⟨?_, ?_, ?_⟩
  · unfold ensurePosixQueueFileSystemMounted
    split_ifs with h1 h2 <;> simp <;> tauto
  · intro h1 h2
    unfold ensurePosixQueueFileSystemMounted
    rw [if_pos ⟨h1, h2⟩]
  · intro h1 h2 h3
    unfold ensurePosixQueueFileSystemMounted
    rw [if_neg h1, if_pos ⟨h2, h3⟩]

/-- Witness for C4 at a concrete world where `mkdir` fails with `EACCES`:
the function fails, reports the `mkdir` error, and performs no `mount`. -/
theorem ensureMounted_tolerates_exactly_eexist_and_ebusy_witness :
    ensurePosixQueueFileSystemMounted wMkdirFail =
      (false, ⟨[Call.mkdir], [Msg.mkdirFailed EACCES], []⟩) :=
  (ensureMounted_tolerates_exactly_eexist_and_ebusy wMkdirFail).2.1
    (by decide) (by decide)

/-- C5: whenever the queue open succeeded (non-negative descriptor),
`printPosixQueueInfo` performs the `mq_close` call before returning, on
the attribute-query-failure path as well as on the success path. -/
theorem stat_always_closes_open_handle (name : String) (w : World)
    (h : ¬ w.mqOpenRet < 0) :
    Call.mqClose ∈ (printPosixQueueInfo name w).2.calls := by
  unfold printPosixQueueInfo
  rw [if_neg h]
  split <;> simp

/-- Witness for C5 at a concrete world where the open succeeds but the
attribute query fails: the close call is still performed. -/
theorem stat_always_closes_open_handle_witness :
    Call.mqClose ∈ (printPosixQueueInfo "/q" wAttrFail).2.calls :=
  stat_always_closes_open_handle "/q" wAttrFail (by decide)

/-- C3 counterexample: invoking `stat` with no queue-name argument, in a
world where every call succeeds, does exit `-1` with a usage message on
the error stream — but only after the program has already performed the
`mkdir` and `mount` calls, so the claimed absence of any OS mutation
before exiting is false. -/
theorem stat_missing_arg_mutates_before_usage :
    (pqMain ["pq", "stat"] wOk).1 = -1 ∧
    Msg.invalidUsage ∈ (pqMain ["pq", "stat"] wOk).2.stderr ∧
    Call.mkdir ∈ (pqMain ["pq", "stat"] wOk).2.calls ∧
    Call.mount ∈ (pqMain ["pq", "stat"] wOk).2.calls := by
  refine ⟨rfl, ?_, ?_, ?_⟩ <;> decide

/-- C3 amended: a no-argument invocation prints the usage message to the
error stream and exits `-1` having performed no system call at all; a
`stat` or `unlink` invocation missing its queue-name argument (when the
mount setup succeeds) exits `-1` and prints the usage message, but only
after the `mkdir` and `mount` calls have been performed — and it performs
no queue operation. -/
theorem usage_errors_exit_nonzero_after_mount_setup (argv : List String) (w : World) :
    (argv.length < 2 →
      pqMain argv w =
        (-1, ⟨[], [Msg.invalidUsage, Msg.usageLine (prognameOf argv)], []⟩)) ∧
    ((argv.getD 1 "" = "stat" ∨ argv.getD 1 "" = "unlink") → argv.length = 2 →
      (ensurePosixQueueFileSystemMounted w).1 = true →
      pqMain argv w =
        (-1, ⟨[Call.mkdir, Call.mount],
              [Msg.invalidUsage, Msg.usageLine (prognameOf argv)], []⟩)) := by
  constructor
  · intro h
    unfold pqMain
    rw [if_pos h]
  · intro hcmd hlen hens
    unfold pqMain
    rw [if_neg (by omega), if_neg (by simp [hens])]
    rcases hcmd with h | h <;> rw [h]
    · rw [if_neg (by decide), if_neg (by decide), if_pos rfl, if_pos (by omega),
          ensure_ok_effects w hens]
      rfl
    · rw [if_neg (by decide), if_neg (by decide), if_neg (by decide), if_pos rfl,
          if_pos (by omega), ensure_ok_effects w hens]
      rfl

/-- Witness for the amended C3 at the concrete invocation `pq stat` in a
world where every call succeeds. -/
theorem usage_errors_exit_nonzero_after_mount_setup_witness :
    pqMain ["pq", "stat"] wOk =
      (-1, ⟨[Call.mkdir, Call.mount],
            [Msg.invalidUsage, Msg.usageLine "pq"], []⟩) :=
  (usage_errors_exit_nonzero_after_mount_setup ["pq", "stat"] wOk).2
    (Or.inl rfl) rfl (by decide)

/-- C6: when the directory opens, `listPosixQueues` succeeds, prints
nothing to the error stream, and prints to standard output exactly the
names of the entries that are neither sub-directories nor dot-prefixed,
one per line in enumeration order — or exactly the placeholder line, and
no names, when no entry survives the filter. -/
theorem ls_prints_filtered_names_or_placeholder (w : World)
    (h : w.opendirOk = true) :
    (listPosixQueues w).1 = true ∧
    (listPosixQueues w).2.stdout =
      (if w.dirEntries.filter isQueueEntry = [] then
        [OutLine.noQueues]
      else
        (w.dirEntries.filter isQueueEntry).map fun e => OutLine.queueName e.d_name) ∧
    (listPosixQueues w).2.stderr = [] := by
  unfold listPosixQueues
  rw [if_neg (by simp [h])]
  refine ⟨rfl, ?_, rfl⟩
  show (if (listLoop w.dirEntries).2 = 0 then
          (listLoop w.dirEntries).1 ++ [OutLine.noQueues]
        else (listLoop w.dirEntries).1) = _
  rw [listLoop_eq]
  by_cases he : w.dirEntries.filter isQueueEntry = []
  · simp [he]
  · have hl : (w.dirEntries.filter isQueueEntry).length ≠ 0 := by
      simpa [List.length_eq_zero] using he
    simp [he, hl]

/-- Witness for C6 at a concrete directory holding `.`, `..`, a hidden
file, a sub-directory, and two queue entries: exactly the two queue names
are printed, in order. -/
theorem ls_prints_filtered_names_or_placeholder_witness :
    (listPosixQueues wEntries).1 = true ∧
    (listPosixQueues wEntries).2.stdout =
      [OutLine.queueName "myq", OutLine.queueName "other"] ∧
    (listPosixQueues wEntries).2.stderr = [] := by
  have h := ls_prints_filtered_names_or_placeholder wEntries rfl
  refine ⟨h.1, ?_, h.2.2⟩
  rw [h.2.1]
  rfl

/-- C7: when the queue open and the attribute query both succeed,
`printPosixQueueInfo` returns `true` and prints exactly the four
attribute lines, in the order flags, maxmsg, msgsize, curmsgs, with the
values from the queried attribute set. -/
theorem stat_success_prints_four_attr_lines (name : String) (w : World)
    (hopen : ¬ w.mqOpenRet < 0) (hattr : w.getattrRet.res = 0) :
    (printPosixQueueInfo name w).1 = true ∧
    (printPosixQueueInfo name w).2.stdout =
      [OutLine.flagsLine w.attr.mq_flags,
       OutLine.maxmsgLine w.attr.mq_maxmsg,
       OutLine.msgsizeLine w.attr.mq_msgsize,
       OutLine.curmsgsLine w.attr.mq_curmsgs] := by
  unfold printPosixQueueInfo
  rw [if_neg hopen, if_neg (by simp [hattr])]
  exact ⟨rfl, rfl⟩

/-- Witness for C7 at a concrete world whose queue has flags 0,
maxmsg 10, msgsize 8192, curmsgs 0. -/
theorem stat_success_prints_four_attr_lines_witness :
    (printPosixQueueInfo "/q" wOk).1 = true ∧
    (printPosixQueueInfo "/q" wOk).2.stdout =
      [OutLine.flagsLine 0, OutLine.maxmsgLine 10,
       OutLine.msgsizeLine 8192, OutLine.curmsgsLine 0] :=
  stat_success_prints_four_attr_lines "/q" wOk (by decide) (by decide)

/-- C8: when the queue open fails, `printPosixQueueInfo` reports the
failure with the queue name and the underlying errno on the error stream,
prints nothing to standard output, and returns `false`; the `stat`
subcommand (with the mount setup succeeding) then exits `-1` with nothing
on standard output. -/
theorem stat_open_failure_reports_and_exits_nonzero (name : String) (w : World)
    (hopen : w.mqOpenRet < 0)
    (hens : (ensurePosixQueueFileSystemMounted w).1 = true) :
    printPosixQueueInfo name w =
      (false, ⟨[Call.mqOpen], [Msg.openQueueFailed name w.mqOpenErrno], []⟩) ∧
    (pqMain ["pq", "stat", name] w).1 = -1 ∧
    (pqMain ["pq", "stat", name] w).2.stdout = [] := by
  have hp : printPosixQueueInfo name w =
      (false, ⟨[Call.mqOpen], [Msg.openQueueFailed name w.mqOpenErrno], []⟩) := by
    unfold printPosixQueueInfo
    rw [if_pos hopen]
  refine ⟨hp, ?_⟩
  have he := ensure_ok_effects w hens
  unfold pqMain
  simp [hens, he, hp, Effects.append, boolToExit]

/-- Witness for C8 at the concrete queue name `/nope` in a world where
`mq_open` fails with `ENOENT`. -/
theorem stat_open_failure_reports_and_exits_nonzero_witness :
    printPosixQueueInfo "/nope" wOpenFail =
      (false, ⟨[Call.mqOpen], [Msg.openQueueFailed "/nope" ENOENT], []⟩) ∧
    (pqMain ["pq", "stat", "/nope"] wOpenFail).1 = -1 ∧
    (pqMain ["pq", "stat", "/nope"] wOpenFail).2.stdout = [] :=
  stat_open_failure_reports_and_exits_nonzero "/nope" wOpenFail (by decide) (by decide)

/-- C9: `printPosixQueueInfo` is entirely independent of the result of
the `mq_close` call — changing that result changes nothing in the
function's output — and once the open and the attribute query have
succeeded, it returns `true` no matter what `mq_close` returns. -/
theorem stat_ignores_close_result (name : String) (w : World) (c : Int) :
    printPosixQueueInfo name { w with mqCloseRet := c } =
      printPosixQueueInfo name w ∧
    (¬ w.mqOpenRet < 0 → w.getattrRet.res = 0 →
      (printPosixQueueInfo name w).1 = true) := by
  constructor
  · rfl
  · intro h1 h2
    unfold printPosixQueueInfo
    rw [if_neg h1, if_neg (by simp [h2])]

/-- Witness for C9 at a concrete world: setting the close result to `-1`
leaves the output unchanged and the function still succeeds. -/
theorem stat_ignores_close_result_witness :
    printPosixQueueInfo "/q2" { wOk with mqCloseRet := -1 } =
      printPosixQueueInfo "/q2" wOk ∧
    (printPosixQueueInfo "/q2" wOk).1 = true :=
  ⟨(stat_ignores_close_result "/q2" wOk (-1)).1,
   (stat_ignores_close_result "/q2" wOk (-1)).2 (by decide) (by decide)⟩

/-- C10: for every argument vector and every world, `main`'s return value
is `0` or `-1`: every failing invocation — usage error, unknown command,
or OS-level failure — exits with the single value `-1`, so the exit code
never distinguishes one error class from another. -/
theorem pq_exit_code_is_zero_or_minus_one (argv : List String) (w : World) :
    (pqMain argv w).1 = 0 ∨ (pqMain argv w).1 = -1 := by
  unfold pqMain boolToExit
  split_ifs <;> simp

end Pq
